import Mathlib

/-!
Verification of the Guideline retrieval-and-confidence pipeline.

This file shallowly embeds the decision logic of the repository
(`apps/api/app/retrieval.py`, `apps/api/app/llm.py`, `apps/api/app/main.py`)
into Lean: strings are `List Char` / `String`, Python floats are `ℚ`,
the SQLite tables are lists of records, and each HTTP handler becomes a
pure function from its inputs (plus explicit parameters standing for
environment reads, random ids and external provider outcomes) to its
response and the rows it inserts.
-/

namespace Guideline

/-! ## Characters and strings

Python string machinery used by the source: `str.lower`,
`re.split(r'[^a-z0-9]+', q)`, substring containment `w in c`,
`len(s)`, `s[:n]`.  All of it is modelled on `List Char`.
-/

abbrev Str := List Char

/-- ASCII lower-casing of one character (`str.lower` on the ASCII inputs
the pipeline deals with). -/
def lowerChar (ch : Char) : Char :=
  if 'A' ≤ ch ∧ ch ≤ 'Z' then Char.ofNat (ch.toNat + 32) else ch

/-- Model of `s.lower()`. -/
def lowerStr (s : Str) : Str := s.map lowerChar

/-- A character kept by the tokenizer: the class `[a-z0-9]` of
`re.split(r'[^a-z0-9]+', q)` applied to a lower-cased question. -/
def isQChar (ch : Char) : Bool :=
  ('a' ≤ ch && ch ≤ 'z') || ('0' ≤ ch && ch ≤ '9')

/-- Maximal runs of characters satisfying `p`: the non-empty pieces
produced by splitting on `[^a-z0-9]+`. `acc` holds the current run,
reversed. -/
def splitRuns (p : Char → Bool) : Str → Str → List Str
  | [], acc => if acc.isEmpty then [] else [acc.reverse]
  | ch :: rest, acc =>
    if p ch then splitRuns p rest (ch :: acc)
    else if acc.isEmpty then splitRuns p rest []
    else acc.reverse :: splitRuns p rest []

/-- Boolean prefix test `w.isPrefixOf l` for char lists (used to express Python `w in c`). -/
def prefixB : Str → Str → Bool
  | [], _ => true
  | _ :: _, [] => false
  | a :: as, b :: bs => (a == b) && prefixB as bs

/-- Python substring containment `w in c`. -/
def containsB (w : Str) : Str → Bool
  | [] => prefixB w []
  | c :: rest => prefixB w (c :: rest) || containsB w rest

/-- Python's lexicographic `<` on strings (code-point order). -/
def strLtB : Str → Str → Bool
  | [], [] => false
  | [], _ :: _ => true
  | _ :: _, [] => false
  | x :: xs, y :: ys => if x = y then strLtB xs ys else decide (x < y)

/-- Python's lexicographic `<=` on strings. -/
def strLeB : Str → Str → Bool
  | [], _ => true
  | _ :: _, [] => false
  | x :: xs, y :: ys => if x = y then strLeB xs ys else decide (x < y)

/-- Model of `set(w for w in re.split(r'[^a-z0-9]+', question.lower()) if len(w) >= 3)`
as a duplicate-free list (first occurrence kept; only its cardinality and
membership are ever used). -/
def qWords (question : String) : List Str :=
  ((splitRuns isQChar (lowerStr question.data) []).filter
    (fun w => 3 ≤ w.length)).dedup

/-- Model of `retrieval.clamp`. -/
def clamp (n a b : ℚ) : ℚ := max a (min b n)

/-- Model of `retrieval.score_chunk`. -/
def score_chunk (question chunk_content : String) : ℚ :=
  let q_words := qWords question
  if q_words.length = 0 then 1
  else
    let c := lowerStr chunk_content.data
    let hit := (q_words.filter (fun w => containsB w c)).length
    let overlap : ℚ := (hit : ℚ) / (q_words.length : ℚ)
    let distance := 1 - overlap
    let penalty : ℚ := if chunk_content.length < 80 then 8/100 else 0
    clamp (distance + penalty) 0 1

/-- Python `round(x, 3)` on the pipeline's rationals: round to the nearest
multiple of 1/1000 (ties resolved by `round`; the pipeline's claims never
depend on tie direction). -/
def round3 (x : ℚ) : ℚ := ((round (x * 1000) : ℤ) : ℚ) / 1000

/-- Model of `s[:n]`. -/
def takeStr (n : Nat) (s : String) : String := String.mk (s.data.take n)

/-! ## Data model

Rows of the SQLite tables and the wire records of `schema.py`, restricted
to the fields the decision logic reads. -/

structure DocRow where
  id : String
  title : String
  policyKey : String
  effectiveDate : String
deriving Repr, DecidableEq

structure ChunkRow where
  id : String
  docId : String
  content : String
  pageStart : Nat
  pageEnd : Nat
  access : String
deriving Repr, DecidableEq

structure Citation where
  chunkId : String
  docId : String
  docTitle : String
  pageStart : Nat
  pageEnd : Nat
  quote : String
  distance : ℚ
deriving Repr, DecidableEq

structure ReviewRow where
  id : String
  question : String
  reason : String
  status : String
  draftAnswer : Option String
  draftCitations : List Citation
  finalAnswer : Option String
  resolvedAt : Option Nat
deriving Repr, DecidableEq

structure QAAnswer where
  answer : String
  citations : List Citation
  confidence : String
  bestDistance : ℚ
  lowConfidence : Bool
  reviewId : Option String
deriving Repr, DecidableEq

/-- Model of `llm.LLMResult`. -/
structure LLMResult where
  answer : String
  confidence : String
  escalate : Bool
  usedChunkIds : List String
  reason : Option String
deriving Repr, DecidableEq

/-- Outcome of the LM Studio call attempted inside
`retrieval.build_answer` (an external, fallible effect): importing the
`openai` module may fail, the chat call may raise, or it returns a
text. -/
inductive GenOutcome where
  | importErr
  | exn (msg : String)
  | ok (text : String)
deriving Repr, DecidableEq

/-- Outcome of the HTTP exchange inside `llm._openai_chat`: the request
(or status check) raises, or it yields a content string that fails JSON
parsing, or it parses into the structured fields. -/
inductive ProviderAttempt where
  | failure (msg : String)
  | malformed (raw : String)
  | structured (r : LLMResult)
deriving Repr, DecidableEq

/-- The `LLM_PROVIDER` selection in `llm.compose_answer` (an unknown provider
string falls back to the mock, so two cases suffice). -/
inductive ProviderKind where
  | mock
  | openaiCompat
deriving Repr, DecidableEq

/-- Environment reads and effects of one `/chat/ask` request:
`LM_STUDIO_URL`, the in-composer generation outcome, `LLM_ENABLED`,
`LLM_PROVIDER`, the provider-call outcome, a possible exception escaping
`compose_answer` itself (caught in `main.ask_policy`), and the id
`uid("rev")` would mint. -/
structure Env where
  lmUrl : String
  gen : GenOutcome
  llmEnabled : Bool
  kind : ProviderKind
  attempt : ProviderAttempt
  composeRaises : Option String
  freshId : String

/-! ## Pipeline functions (`main.ask_policy` and helpers) -/

/-- Role → allowed access labels (`main.ask_policy`, lines 112-123). -/
def allowedAccess (role : String) : List String :=
  if role = "public" then ["public"]
  else if role = "internal" then ["public", "internal"]
  else if role = "confidential" then ["public", "internal", "confidential"]
  else if role = "restricted" then ["public", "internal", "confidential", "restricted"]
  else ["public", "internal"]

/-- Replace the value at `k` in an association list, or append it. -/
def setKey : List (String × DocRow) → String → DocRow → List (String × DocRow)
  | [], k, v => [(k, v)]
  | (k', v') :: rest, k, v =>
    if k' = k then (k, v) :: rest else (k', v') :: setKey rest k v

/-- The `newest_by_key` dict: keep, per policy key, the document with the
lexicographically greatest effective date, earlier-seen winning ties. -/
def newestByKey (docs : List DocRow) : List (String × DocRow) :=
  docs.foldl (fun acc d =>
    match acc.lookup d.policyKey with
    | none => setKey acc d.policyKey d
    | some e =>
      if strLtB e.effectiveDate.data d.effectiveDate.data then setKey acc d.policyKey d
      else acc) []

/-- The `doc_titles` dict (`.get(doc_id, "Unknown")`; later rows win). -/
def titleOf (docs : List DocRow) (id : String) : String :=
  match docs.reverse.find? (fun d => d.id == id) with
  | some d => d.title
  | none => "Unknown"

/-- The candidate chunks: those of a current-per-policy-key document,
with an access label allowed for the role. -/
def candidateChunks (docs : List DocRow) (chunks : List ChunkRow) (role : String) :
    List ChunkRow :=
  chunks.filter (fun c =>
    ((newestByKey docs).map (fun kv => kv.2.id)).contains c.docId
      && (allowedAccess role).contains c.access)

/-- Sorting relation of `scored.sort(key=lambda x: x['dist'])`. -/
def distLE (a b : ChunkRow × ℚ) : Prop := a.2 ≤ b.2

instance : DecidableRel distLE := fun a b => inferInstanceAs (Decidable (a.2 ≤ b.2))

instance : IsTotal (ChunkRow × ℚ) distLE := ⟨fun a b => le_total a.2 b.2⟩

instance : IsTrans (ChunkRow × ℚ) distLE := ⟨fun _ _ _ h1 h2 => le_trans h1 h2⟩

/-- Score every candidate and sort ascending by distance (stable, like
Python's `list.sort`). -/
def pipelineScored (question : String) (docs : List DocRow) (chunks : List ChunkRow)
    (role : String) : List (ChunkRow × ℚ) :=
  ((candidateChunks docs chunks role).map
    (fun c => (c, score_chunk question c.content))).insertionSort distLE

/-- One citation record built from a scored chunk
(`main.ask_policy`, lines 177-185). -/
def mkCitation (docs : List DocRow) (x : ChunkRow × ℚ) : Citation :=
  { chunkId := x.1.id
    docId := x.1.docId
    docTitle := titleOf docs x.1.docId
    pageStart := x.1.pageStart
    pageEnd := x.1.pageEnd
    quote := takeStr 220 x.1.content
    distance := round3 x.2 }

/-- Citation assembly from the sorted scored list: keep the first 6,
retain the ones with distance < 0.95, project to citation records. -/
def citationsFromScored (docs : List DocRow) (scored : List (ChunkRow × ℚ)) :
    List Citation :=
  ((scored.take 6).filter (fun x => decide (x.2 < 95/100))).map (mkCitation docs)

/-- Model of `best_distance = citations[0]['distance'] if citations else 1.0` -/
def bestOf : List Citation → ℚ
  | [] => 1
  | c :: _ => c.distance

/-- Model of `retrieval.confidence_from_distance`. -/
def confidence_from_distance (best_distance : ℚ) : String :=
  if best_distance ≤ 35/100 then "High"
  else if best_distance ≤ 6/10 then "Medium"
  else "Low"

/-- Model of `retrieval.detect_conflict` (the `f"{pageStart}:{docId}"` strings are
modelled as pairs; the formatting is injective since a page number holds
no colon). -/
def detect_conflict (citations : List Citation) (question : String) : Bool :=
  let wants_number :=
    ["limit", "how much", "maximum", "max", "per day", "per night", "$", "dollar"].any
      (fun w => containsB w.data (lowerStr question.data))
  if !wants_number then false
  else
    let dates := (citations.map (fun c => (c.pageStart, c.docId))).dedup
    let unique_docs := (citations.map (fun c => c.docId)).dedup
    decide (2 ≤ unique_docs.length) && decide (2 ≤ dates.length)

/-- Model of `re.search(r'schedule|shift|on[- ]?call|availability|hours|holiday', q)`
on the lower-cased question. -/
def mentionSchedule (q : Str) : Bool :=
  ["schedule", "shift", "oncall", "on-call", "on call", "availability", "hours", "holiday"].any
    (fun w => containsB w.data q)

/-- Model of `retrieval.build_answer`: the template composer.  After the schedule
redirect and the no-citations apology it attempts an LM Studio
generation, whose outcome is the explicit `gen` parameter. -/
def build_answer (lmUrl : String) (gen : GenOutcome) (question : String)
    (citations : List Citation) (role : String) : String :=
  let q := lowerStr question.data
  if mentionSchedule q then
    "I can help with schedule questions on the Schedule tab. For policy questions, I’ll cite the exact section and effective date."
  else if citations.isEmpty then
    "I couldn’t find this in the currently ingested policies for your access level (**" ++ role ++ "**). I can route this to the Review Queue for an official answer."
  else
    match gen with
    | .importErr => "Error: \x27openai\x27 library is not installed. Please install it."
    | .ok text => text
    | .exn msg =>
      if containsB "Connection refused".data msg.data
          || containsB "target machine".data msg.data then
        "Error: Could not connect to LM Studio at " ++ lmUrl ++ ". Is it running?"
      else
        "I encountered an error generating the answer: " ++ msg

/-- Model of `llm._mock_chat`. -/
def mockChat (candidates : List Citation) (best_distance : ℚ) : LLMResult :=
  match candidates with
  | [] =>
    { answer := "I couldn\x27t find any information about that in the policy."
      confidence := "Low", escalate := false, usedChunkIds := [], reason := none }
  | top :: _ =>
    let confidence :=
      if best_distance > 6/10 then "Low"
      else if best_distance > 4/10 then "Medium"
      else "High"
    { answer := "Mock Answer: Based on " ++ top.docTitle ++ ", feature is available."
      confidence := confidence
      escalate := false
      usedChunkIds := (candidates.take 2).map (fun c => c.chunkId)
      reason := none }

/-- Model of `llm._openai_chat`: every failure of the HTTP exchange is caught
inside the adapter and converted into a fallback result. -/
def openaiChat : ProviderAttempt → LLMResult
  | .failure msg =>
    { answer := "I encountered an issue connecting to the AI helper."
      confidence := "Low", escalate := true, usedChunkIds := [], reason := some msg }
  | .malformed raw =>
    { answer := takeStr 500 raw ++ "..."
      confidence := "Low", escalate := true, usedChunkIds := []
      reason := some "Invalid JSON response" }
  | .structured r => r

/-- Model of `llm.compose_answer`: provider dispatch. -/
def compose_answer (kind : ProviderKind) (attempt : ProviderAttempt)
    (candidates : List Citation) (best_distance : ℚ) : LLMResult :=
  match kind with
  | .mock => mockChat candidates best_distance
  | .openaiCompat => openaiChat attempt

/-- Flag `not_found = len(citations) == 0 or best_distance >= 0.9`
(`main.ask_policy`, line 193). -/
def notFoundFlag (citations : List Citation) : Bool :=
  citations.isEmpty || decide (bestOf citations ≥ 9/10)

/-- Flag `low_confidence = not_found or best_distance > 0.5 or conflict`
(`main.ask_policy`, line 194). -/
def lowConfFlag (citations : List Citation) (question : String) : Bool :=
  notFoundFlag citations || decide (bestOf citations > 5/10)
    || detect_conflict citations question

/-- Model of `main.ask_policy`, lines 213-228: reconcile the provider's
`used_chunk_ids` with the local citation list (hallucination guard:
if narrowing removes everything, rebuild the list from the sorted
scored candidates). -/
def narrowCitations (docs : List DocRow) (scored : List (ChunkRow × ℚ))
    (citations0 : List Citation) (r : LLMResult) : List Citation :=
  if !r.usedChunkIds.isEmpty then
    let narrowed := citations0.filter (fun c => r.usedChunkIds.contains c.chunkId)
    if narrowed.isEmpty && decide (0 < citations0.length) then
      ((scored.filter (fun x => decide (x.2 < 95/100))).take 6).map (mkCitation docs)
    else narrowed
  else citations0

/-- The `LLM_ENABLED` block of `main.ask_policy` (lines 200-232): when
enabled and citations exist, the provider's answer and confidence
replace the template ones, an escalate flag forces low confidence, and
the citations are narrowed; an exception escaping `compose_answer` is
caught and everything already computed stands. -/
def llmStep (env : Env) (docs : List DocRow) (scored : List (ChunkRow × ℚ))
    (citations0 : List Citation) (best : ℚ)
    (answer0 confidence0 : String) (lowConf0 : Bool) :
    String × String × Bool × List Citation :=
  if env.llmEnabled && !citations0.isEmpty then
    match env.composeRaises with
    | some _ => (answer0, confidence0, lowConf0, citations0)
    | none =>
      let r := compose_answer env.kind env.attempt citations0 best
      (r.answer, r.confidence, lowConf0 || r.escalate,
        narrowCitations docs scored citations0 r)
  else (answer0, confidence0, lowConf0, citations0)

/-- Model of `main.ask_policy`: the full `/chat/ask` handler.  Returns the
response together with the review rows inserted by this request. -/
def askPolicy (env : Env) (docs : List DocRow) (chunks : List ChunkRow)
    (role question : String) : QAAnswer × List ReviewRow :=
  let nbk := newestByKey docs
  if nbk.isEmpty then
    ({ answer := "No documents found.", citations := [], confidence := "Low",
       bestDistance := 1, lowConfidence := true, reviewId := none }, [])
  else
    let scored := pipelineScored question docs chunks role
    let citations0 := citationsFromScored docs scored
    let best := bestOf citations0
    let confidence0 := confidence_from_distance best
    let conflict := detect_conflict citations0 question
    let notFound := notFoundFlag citations0
    let lowConf0 := lowConfFlag citations0 question
    let answer0 := build_answer env.lmUrl env.gen question citations0 role
    let step := llmStep env docs scored citations0 best answer0 confidence0 lowConf0
    let answer := step.1
    let confidence := step.2.1
    let lowConf := step.2.2.1
    let citations := step.2.2.2
    if lowConf then
      let reason := if notFound then "not_found" else if conflict then "conflict" else "low_confidence"
      let draft := if notFound then none else some answer
      ({ answer := answer, citations := citations, confidence := confidence,
         bestDistance := best, lowConfidence := lowConf, reviewId := some env.freshId },
       [{ id := env.freshId, question := question, reason := reason, status := "open",
          draftAnswer := draft, draftCitations := citations, finalAnswer := none,
          resolvedAt := none }])
    else
      ({ answer := answer, citations := citations, confidence := confidence,
         bestDistance := best, lowConfidence := lowConf, reviewId := none }, [])

/-- Model of `main.resolve_review`: run the unconditional `UPDATE ... WHERE id = ?`,
then fail with 404 exactly when it matched no row. -/
def resolveReview (items : List ReviewRow) (id finalAnswer : String) (now : Nat) :
    Except String (List ReviewRow × Bool) :=
  let updated := items.map (fun r =>
    if r.id = id then
      { r with status := "resolved", finalAnswer := some finalAnswer, resolvedAt := some now }
    else r)
  let rowcount := (items.filter (fun r => r.id = id)).length
  if rowcount = 0 then Except.error "Review item not found"
  else Except.ok (updated, true)

/-! ## Schedule Q&A (`main.ask_schedule`) -/

structure DayEntry where
  day : String
  start : String
  «end» : String
  note : Option String
deriving Repr, DecidableEq

structure OncallEntry where
  «from» : String
  «to» : String
  note : Option String
deriving Repr, DecidableEq

structure Holiday where
  date : String
  name : String
deriving Repr, DecidableEq

structure ScheduleConfig where
  timezone : String
  week : List DayEntry
  oncall : List OncallEntry
  holidays : List Holiday
deriving Repr, DecidableEq

def digitB (c : Char) : Bool := '0' ≤ c && c ≤ '9'

def natOfDigits (l : Str) : Nat := l.foldl (fun n c => n * 10 + (c.toNat - 48)) 0

def isLeap (y : Nat) : Bool := (y % 4 = 0 && !(y % 100 = 0)) || y % 400 = 0

def daysInMonth (y m : Nat) : Nat :=
  if m = 2 then (if isLeap y then 29 else 28)
  else if m = 4 ∨ m = 6 ∨ m = 9 ∨ m = 11 then 30
  else 31

/-- Model of `datetime.strptime(h['date'], "%Y-%m-%d")`: four year digits, one or
two month digits, one or two day digits, both ranges validated; `none`
models the `ValueError`. -/
def parseDate (s : String) : Option (Nat × Nat × Nat) :=
  let (ys, r1) := s.data.span digitB
  if ys.length = 4 then
    match r1 with
    | '-' :: r2 =>
      let (ms, r3) := r2.span digitB
      if ms.length = 0 ∨ 2 < ms.length then none
      else
        match r3 with
        | '-' :: r4 =>
          let (ds, r5) := r4.span digitB
          if ds.length = 0 ∨ 2 < ds.length ∨ r5 ≠ [] then none
          else
            let y := natOfDigits ys
            let m := natOfDigits ms
            let d := natOfDigits ds
            if 1 ≤ m ∧ m ≤ 12 ∧ 1 ≤ d ∧ d ≤ daysInMonth y m then some (y, m, d)
            else none
        | _ => none
    | _ => none
  else none

/-- Comparison key of a parsed date; on dates validated by `parseDate`
its order is the `datetime` order. -/
def dateKey (d : Nat × Nat × Nat) : Nat := d.1 * 10000 + d.2.1 * 100 + d.2.2

def holDateLE (a b : (Nat × Nat × Nat) × Holiday) : Prop := dateKey a.1 ≤ dateKey b.1

instance : DecidableRel holDateLE :=
  fun a b => inferInstanceAs (Decidable (dateKey a.1 ≤ dateKey b.1))

instance : IsTotal ((Nat × Nat × Nat) × Holiday) holDateLE :=
  ⟨fun a b => Nat.le_total (dateKey a.1) (dateKey b.1)⟩

instance : IsTrans ((Nat × Nat × Nat) × Holiday) holDateLE :=
  ⟨fun _ _ _ h1 h2 => Nat.le_trans h1 h2⟩

/-- Parse each holiday (skipping unparsable dates) and sort ascending by
date, stably. -/
def parsedHolidays (hs : List Holiday) : List ((Nat × Nat × Nat) × Holiday) :=
  (hs.filterMap (fun h => (parseDate h.date).map (fun dt => (dt, h)))).insertionSort holDateLE

/-- The `months` dict, in insertion order. -/
def monthsList : List (String × Nat) :=
  [("january", 1), ("february", 2), ("march", 3), ("april", 4), ("may", 5), ("june", 6),
   ("july", 7), ("august", 8), ("september", 9), ("october", 10), ("november", 11),
   ("december", 12)]

def upperChar (ch : Char) : Char :=
  if 'a' ≤ ch ∧ ch ≤ 'z' then Char.ofNat (ch.toNat - 32) else ch

/-- Model of `str.capitalize()`. -/
def capitalizeStr (s : String) : String :=
  match s.data with
  | [] => ""
  | c :: rest => String.mk (upperChar c :: rest.map lowerChar)

/-- Falsy-note suffix: `f" — {note}" if entry.get('note') else ""`. -/
def noteSuffix : Option String → String
  | some n => if n = "" then "" else " — " ++ n
  | none => ""

/-- The holiday rule (rule 1) of `main.ask_schedule`. -/
def holidayAnswer (today : String) (s : ScheduleConfig) (q : Str) : String :=
  if s.holidays.isEmpty then "No holidays configured."
  else
    let parsed := parsedHolidays s.holidays
    match monthsList.find? (fun mn => containsB mn.1.data q) with
    | some mn =>
      let found := (parsed.filter (fun x => decide (x.1.2.1 = mn.2))).map (fun x => x.2)
      if found.isEmpty then "No holidays found in " ++ capitalizeStr mn.1 ++ "."
      else
        "Holidays in " ++ capitalizeStr mn.1 ++ ": "
          ++ String.intercalate ", "
              (found.map (fun h => "**" ++ h.name ++ "** on **" ++ h.date ++ "**"))
          ++ " (" ++ s.timezone ++ ")."
    | none =>
      let upcoming := (parsed.map (fun x => x.2)).filter
        (fun h => strLeB today.data h.date.data)
      match upcoming with
      | [] => "No upcoming holidays found in the schedule."
      | h :: _ =>
        "Next holiday: **" ++ h.name ++ "** on **" ++ h.date ++ "** (" ++ s.timezone ++ ")."

/-- The weekday rule (rule 2) for a matched day entry. -/
def weekdayAnswer (s : ScheduleConfig) (day : DayEntry) : String :=
  "Your **" ++ day.day ++ "** schedule is **" ++ day.start ++ "–" ++ day.«end» ++ "**"
    ++ noteSuffix day.note ++ ". (" ++ s.timezone ++ ")"

/-- The on-call rule (rule 3). -/
def oncallAnswer (s : ScheduleConfig) : String :=
  match s.oncall with
  | [] => "No on-call schedule configured."
  | oc :: _ =>
    "On-call window: **" ++ oc.«from» ++ " → " ++ oc.«to» ++ "**" ++ noteSuffix oc.note ++ "."

/-- The fallback help message (rule 4). -/
def scheduleHelp : String :=
  "I can answer schedule questions like: “What’s my schedule Monday?”, “Am I on-call this week?”, or “Any holidays coming up?”"

/-- Model of `main.ask_schedule`: `today` stands for `datetime.now().strftime("%Y-%m-%d")`,
`cfg` for the (possibly missing) singleton schedule row. -/
def askSchedule (today : String) (cfg : Option ScheduleConfig) (question : String) : String :=
  match cfg with
  | none => "No schedule is configured yet."
  | some s =>
    let q := lowerStr question.data
    if containsB "holiday".data q then holidayAnswer today s q
    else
      match s.week.find? (fun day => containsB (lowerStr day.day.data) q) with
      | some day => weekdayAnswer s day
      | none =>
        if containsB "oncall".data q || containsB "on-call".data q then oncallAnswer s
        else scheduleHelp

/-! ## Concrete fixtures (used by witnesses and counterexamples) -/

def docsFix : List DocRow :=
  [{ id := "doc_1", title := "Travel Policy 2025", policyKey := "travel_policy",
     effectiveDate := "2025-01-01" }]

def chunksFix : List ChunkRow :=
  [{ id := "chunk_meals", docId := "doc_1",
     content := "Meals are capped at $60/day, itemized receipt required.",
     pageStart := 1, pageEnd := 1, access := "internal" }]

/-- A long chunk covering every qualifying word of the meals question, so
its distance is 0 and the local low-confidence formula is false. -/
def chunksLong : List ChunkRow :=
  [{ id := "chunk_long", docId := "doc_1",
     content := "The meals limit is what follows: meals are capped at sixty dollars per day for what it is worth.",
     pageStart := 1, pageEnd := 1, access := "internal" }]

/-- Template-mode environment: `LLM_ENABLED=0`, LM Studio unreachable. -/
def envTemplate : Env :=
  { lmUrl := "http://localhost:1234/v1", gen := GenOutcome.exn "Connection refused",
    llmEnabled := false, kind := ProviderKind.mock,
    attempt := ProviderAttempt.failure "unused", composeRaises := none,
    freshId := "rev_1" }

/-- Provider mode with a transport failure in the provider adapter. -/
def envFail : Env :=
  { lmUrl := "http://localhost:1234/v1", gen := GenOutcome.exn "Connection refused",
    llmEnabled := true, kind := ProviderKind.openaiCompat,
    attempt := ProviderAttempt.failure "timeout", composeRaises := none,
    freshId := "rev_2" }

/-- Provider mode where the provider hallucinates unknown chunk ids. -/
def envGhost : Env :=
  { lmUrl := "http://localhost:1234/v1", gen := GenOutcome.exn "Connection refused",
    llmEnabled := true, kind := ProviderKind.openaiCompat,
    attempt := ProviderAttempt.structured
      { answer := "From the provider", confidence := "High", escalate := false,
        usedChunkIds := ["bogus_id"], reason := none },
    composeRaises := none, freshId := "rev_3" }

def cfgFix : ScheduleConfig :=
  { timezone := "America/New_York",
    week := [{ day := "Monday", start := "08:00", «end» := "17:00", note := none }],
    oncall := [],
    holidays := [{ date := "2026-12-25", name := "Christmas Day" }] }

def reviewOpenFix : ReviewRow :=
  { id := "rev_9", question := "What is X?", reason := "not_found", status := "open",
    draftAnswer := none, draftCitations := [], finalAnswer := none, resolvedAt := none }

def reviewResolvedFix : ReviewRow :=
  { id := "rev_9", question := "What is X?", reason := "not_found", status := "resolved",
    draftAnswer := none, draftCitations := [], finalAnswer := some "old answer",
    resolvedAt := some 5 }

end Guideline

namespace Guideline

/- The Batteries rational arithmetic is `@[irreducible]`; witnesses
evaluate the pipeline on concrete inputs, so restore reducibility. -/
unseal Rat.add Rat.mul Rat.sub Rat.inv

/-! ### Basic lemmas about the string machinery -/

theorem prefixB_append {w l : Str} (b : Str) (h : prefixB w l = true) :
    prefixB w (l ++ b) = true := by
  induction w generalizing l with
  | nil => simp [prefixB]
  | cons a as ih =>
    cases l with
    | nil => simp [prefixB] at h
    | cons x xs =>
      simp only [prefixB, Bool.and_eq_true] at h ⊢
      exact ⟨h.1, ih h.2⟩

theorem containsB_append_right {w c : Str} (b : Str)
    (h : containsB w c = true) : containsB w (c ++ b) = true := by
  induction c with
  | nil =>
    cases w with
    | nil =>
      cases b with
      | nil => simpa [containsB] using h
      | cons y ys => simp [containsB, prefixB]
    | cons a as => simp [containsB, prefixB] at h
  | cons x xs ih =>
    simp only [containsB, Bool.or_eq_true] at h
    rcases h with h | h
    · simp only [List.cons_append, containsB, Bool.or_eq_true]
      exact Or.inl (prefixB_append b h)
    · simp only [List.cons_append, containsB, Bool.or_eq_true]
      exact Or.inr (ih h)

theorem containsB_nil_of (w : Str) (h : containsB w [] = true) : w = [] := by
  cases w with
  | nil => rfl
  | cons a as => simp [containsB, prefixB] at h

theorem containsB_nil_left (c : Str) : containsB [] c = true := by
  induction c with
  | nil => simp [containsB, prefixB]
  | cons x xs ih => simp [containsB, prefixB]

theorem containsB_append_left {w c : Str} (a : Str)
    (h : containsB w c = true) : containsB w (a ++ c) = true := by
  induction a with
  | nil => simpa using h
  | cons x xs ih =>
    simp only [List.cons_append, containsB, Bool.or_eq_true]
    exact Or.inr ih

/-- Surrounding the content with arbitrary text preserves every
substring hit. -/
theorem containsB_extend {w c : Str} (a b : Str)
    (h : containsB w c = true) : containsB w (a ++ c ++ b) = true := by
  rw [List.append_assoc]
  exact containsB_append_left a (containsB_append_right b h)

/-! ### Clamp lemmas -/

theorem le_clamp (n a b : ℚ) : a ≤ clamp n a b := le_max_left a _

theorem clamp_le {a b : ℚ} (n : ℚ) (hab : a ≤ b) : clamp n a b ≤ b :=
  max_le hab (min_le_left b n)

theorem clamp_mono {x y : ℚ} (a b : ℚ) (h : x ≤ y) :
    clamp x a b ≤ clamp y a b :=
  max_le_max le_rfl (min_le_min le_rfl h)

/-! ### C3: the scorer's formula and range -/

/-- Claim C3: For every question and chunk content, `score_chunk` returns
exactly 1 when the lower-cased question has no alphanumeric run of
length ≥ 3 (i.e. `qWords` is empty); otherwise it returns
`clamp (1 - overlap + penalty) 0 1` with `overlap` the fraction of the
distinct qualifying question-words occurring as substrings of the
lower-cased content and `penalty = 0.08` iff the content is shorter than
80 characters; and in every case the result lies in `[0, 1]`. -/
theorem score_chunk_formula_and_range (question content : String) :
    (qWords question = [] → score_chunk question content = 1)
  ∧ (qWords question ≠ [] →
      score_chunk question content =
        clamp (1 - (((qWords question).filter
              (fun w => containsB w (lowerStr content.data))).length : ℚ)
            / ((qWords question).length : ℚ)
          + (if content.length < 80 then 8/100 else 0)) 0 1)
  ∧ 0 ≤ score_chunk question content ∧ score_chunk question content ≤ 1 := by
  refine ⟨fun h => ?_, fun h => ?_, ?_⟩
  · simp [score_chunk, h]
  · have hn : ¬(qWords question).length = 0 := by
      simpa [List.length_eq_zero] using h
    simp [score_chunk, hn]
  · by_cases h0 : (qWords question).length = 0
    · simp [score_chunk, h0]
    · simp only [score_chunk, h0, if_false]
      exact ⟨le_clamp _ _ _, clamp_le _ (by norm_num)⟩

/-- Claim C3 witness: Concrete instance: the canonical meals question has
qualifying words, and its score against a seeded chunk is in range. -/
theorem score_chunk_range_witness :
    qWords "What is the meals limit?" ≠ [] ∧
    0 ≤ score_chunk "What is the meals limit?"
        "Meals are capped at $60/day, itemized receipt required." ∧
    score_chunk "What is the meals limit?"
        "Meals are capped at $60/day, itemized receipt required." ≤ 1 :=
  ⟨by decide,
   (score_chunk_formula_and_range "What is the meals limit?"
     "Meals are capped at $60/day, itemized receipt required.").2.2⟩

/-! ### C7: monotonicity of the scorer under content extension -/

/-- Claim C7: Extending the chunk content (in particular, by adding more of
the question's qualifying words as literal substrings before or after
it) never increases the scored distance. -/
theorem score_chunk_mono_extend (question pre post content : String) :
    score_chunk question (pre ++ content ++ post) ≤ score_chunk question content := by
  by_cases h0 : (qWords question).length = 0
  · simp [score_chunk, h0]
  · simp only [score_chunk, h0, if_false]
    apply clamp_mono
    have hdata : (pre ++ content ++ post).data
        = pre.data ++ content.data ++ post.data := by
      simp [String.data_append]
    have hlow : lowerStr (pre ++ content ++ post).data
        = lowerStr pre.data ++ lowerStr content.data ++ lowerStr post.data := by
      simp [hdata, lowerStr, List.map_append]
    have hhit : ((qWords question).filter
          (fun w => containsB w (lowerStr content.data))).length
        ≤ ((qWords question).filter
          (fun w => containsB w (lowerStr (pre ++ content ++ post).data))).length := by
      refine List.Sublist.length_le (List.monotone_filter_right _ ?_)
      intro w hw
      rw [hlow]
      exact containsB_extend _ _ hw
    have hlen : content.length ≤ (pre ++ content ++ post).length := by
      simp only [String.length_append]
      omega
    have hdiv : (((qWords question).filter
          (fun w => containsB w (lowerStr content.data))).length : ℚ)
            / ((qWords question).length : ℚ)
        ≤ (((qWords question).filter
          (fun w => containsB w (lowerStr (pre ++ content ++ post).data))).length : ℚ)
            / ((qWords question).length : ℚ) := by
      gcongr
    have hpen : (if (pre ++ content ++ post).length < 80 then (8:ℚ)/100 else 0)
        ≤ (if content.length < 80 then (8:ℚ)/100 else 0) := by
      by_cases hc : (pre ++ content ++ post).length < 80
      · rw [if_pos hc, if_pos (lt_of_le_of_lt hlen hc)]
      · rw [if_neg hc]
        by_cases hcc : content.length < 80
        · rw [if_pos hcc]; norm_num
        · rw [if_neg hcc]
    linarith

/-! ### Sorting and rounding lemmas -/

theorem round3_mono {x y : ℚ} (h : x ≤ y) : round3 x ≤ round3 y := by
  unfold round3
  have hr : round (x * 1000) ≤ round (y * 1000) := by
    rw [round_eq, round_eq]
    exact Int.floor_mono (by linarith)
  have hc : ((round (x * 1000) : ℤ) : ℚ) ≤ ((round (y * 1000) : ℤ) : ℚ) := by
    exact_mod_cast hr
  linarith

theorem sorted_pipelineScored (question : String) (docs : List DocRow)
    (chunks : List ChunkRow) (role : String) :
    List.Sorted distLE (pipelineScored question docs chunks role) :=
  List.sorted_insertionSort distLE _

/-- On a list sorted by distance, a downward-closed filter commutes with
`take`: the survivors form a prefix either way. -/
theorem filter_take_of_sorted {p : ChunkRow × ℚ → Bool}
    (hp : ∀ a b, distLE a b → p b = true → p a = true)
    {l : List (ChunkRow × ℚ)} (hl : List.Sorted distLE l) (n : Nat) :
    (l.take n).filter p = (l.filter p).take n := by
  induction l generalizing n with
  | nil => simp
  | cons x xs ih =>
    cases n with
    | zero => simp
    | succ n =>
      by_cases hx : p x = true
      · simp only [List.take_succ_cons, List.filter_cons, hx, if_true]
        rw [ih (List.Sorted.of_cons hl) n]
      · have hall : ∀ y ∈ xs, p y = false := by
          intro y hy
          rcases Bool.eq_false_or_eq_true (p y) with h | h
          · exact absurd (hp x y (List.rel_of_sorted_cons hl y hy) h) hx
          · exact h
        have h1 : xs.filter p = [] := by
          rw [List.filter_eq_nil_iff]
          intro a ha
          simp [hall a ha]
        have h2 : (xs.take n).filter p = [] := by
          rw [List.filter_eq_nil_iff]
          intro a ha
          simp [hall a (List.mem_of_mem_take ha)]
        simp only [List.take_succ_cons, List.filter_cons, hx, if_false, h1, h2]
        simp

theorem cutoff_downward : ∀ a b : ChunkRow × ℚ, distLE a b →
    decide (b.2 < 95/100) = true → decide (a.2 < 95/100) = true := by
  intro a b hab hb
  rw [decide_eq_true_iff] at hb ⊢
  exact lt_of_le_of_lt hab hb

/-- The hallucination-guard rebuild (`filter < 0.95` then `[:6]` over the
sorted scored list) reproduces the original citation list (`[:6]` then
`filter < 0.95`). -/
theorem rebuild_eq_citations {l : List (ChunkRow × ℚ)} (docs : List DocRow)
    (hl : List.Sorted distLE l) :
    ((l.filter (fun x => decide (x.2 < 95/100))).take 6).map (mkCitation docs)
      = citationsFromScored docs l := by
  unfold citationsFromScored
  rw [filter_take_of_sorted cutoff_downward hl 6]

/-! ### C2: citation assembly -/

/-- Claim C2: For every scored candidate set, the assembled citation list
has at most 6 entries, is sorted ascending by (rounded) distance, each
entry comes from a candidate with distance < 0.95 with its distance
rounded to 3 decimals, and the best distance exposed is the first
citation's rounded distance, or 1 when no citation survives. -/
theorem citation_assembly_spec (question : String) (docs : List DocRow)
    (chunks : List ChunkRow) (role : String) :
    (citationsFromScored docs (pipelineScored question docs chunks role)).length ≤ 6
  ∧ List.Sorted (fun a b : Citation => a.distance ≤ b.distance)
      (citationsFromScored docs (pipelineScored question docs chunks role))
  ∧ (∀ cit ∈ citationsFromScored docs (pipelineScored question docs chunks role),
      ∃ x ∈ pipelineScored question docs chunks role,
        x.2 < 95/100 ∧ cit = mkCitation docs x ∧ cit.distance = round3 x.2)
  ∧ (∀ c rest,
      citationsFromScored docs (pipelineScored question docs chunks role) = c :: rest →
      bestOf (citationsFromScored docs (pipelineScored question docs chunks role))
        = c.distance)
  ∧ (citationsFromScored docs (pipelineScored question docs chunks role) = [] →
      bestOf (citationsFromScored docs (pipelineScored question docs chunks role)) = 1) := by
  have hsorted := sorted_pipelineScored question docs chunks role
  refine ⟨?_, ?_, ?_, ?_, ?_⟩
  · unfold citationsFromScored
    rw [List.length_map]
    exact le_trans (List.length_filter_le _ _) (List.length_take_le _ _)
  · unfold citationsFromScored
    rw [List.Sorted, List.pairwise_map]
    have h1 : List.Pairwise distLE
        (((pipelineScored question docs chunks role).take 6).filter
          (fun x => decide (x.2 < 95/100))) :=
      List.Pairwise.sublist
        ((List.filter_sublist _).trans (List.take_sublist _ _)) hsorted
    exact h1.imp (fun h => round3_mono h)
  · intro cit hcit
    unfold citationsFromScored at hcit
    rcases List.mem_map.mp hcit with ⟨x, hx, rfl⟩
    rcases List.mem_filter.mp hx with ⟨hx6, hxlt⟩
    refine ⟨x, List.mem_of_mem_take hx6, by simpa using hxlt, rfl, rfl⟩
  · intro c rest h
    rw [h]
    rfl
  · intro h
    rw [h]
    rfl

/-! ### Reductions of `askPolicy` -/

theorem citations_nil_of_nbk_nil (question : String) (docs : List DocRow)
    (chunks : List ChunkRow) (role : String) (h : newestByKey docs = []) :
    citationsFromScored docs (pipelineScored question docs chunks role) = [] := by
  unfold citationsFromScored pipelineScored candidateChunks
  rw [h]
  simp [List.insertionSort]

/-- With a non-empty newest-doc map, enabled provider integration, a
provider call that completes, and non-empty citations, the effective
(answer, confidence, lowConfidence, citations) quadruple is the
provider's answer and confidence, the escalate-forced flag, and the
narrowed citations. -/
theorem llmStep_provider (env : Env) (docs : List DocRow)
    (scored : List (ChunkRow × ℚ)) (cits0 : List Citation) (best : ℚ)
    (a0 c0 : String) (lc0 : Bool)
    (hen : env.llmEnabled = true) (hok : env.composeRaises = none)
    (hcits : cits0 ≠ []) :
    llmStep env docs scored cits0 best a0 c0 lc0 =
      ((compose_answer env.kind env.attempt cits0 best).answer,
       (compose_answer env.kind env.attempt cits0 best).confidence,
       lc0 || (compose_answer env.kind env.attempt cits0 best).escalate,
       narrowCitations docs scored cits0
         (compose_answer env.kind env.attempt cits0 best)) := by
  unfold llmStep
  have hce : cits0.isEmpty = false := by
    rcases cits0 with _ | _
    · exact absurd rfl hcits
    · rfl
  rw [hen, hce, hok]
  simp

/-- When the provider integration is skipped (disabled, or no citations,
or `compose_answer` raised), everything already computed stands. -/
theorem llmStep_skipped (env : Env) (docs : List DocRow)
    (scored : List (ChunkRow × ℚ)) (cits0 : List Citation) (best : ℚ)
    (a0 c0 : String) (lc0 : Bool)
    (hskip : env.llmEnabled = false ∨ cits0 = [] ∨ env.composeRaises ≠ none) :
    llmStep env docs scored cits0 best a0 c0 lc0 = (a0, c0, lc0, cits0) := by
  unfold llmStep
  rcases hskip with h | h | h
  · rw [h]
    simp
  · subst h
    simp
  · rcases hc : env.composeRaises with _ | e
    · exact absurd hc h
    · by_cases hb : (env.llmEnabled && !cits0.isEmpty) = true
      · rw [hb]
        simp
      · rw [Bool.eq_false_iff.mpr hb]
        simp

/-- Reduction of `askPolicy` in terms of its named stages, once documents exist. -/
theorem askPolicy_unfold (env : Env) (docs : List DocRow) (chunks : List ChunkRow)
    (role question : String) (h : (newestByKey docs).isEmpty = false) :
    askPolicy env docs chunks role question =
      (let scored := pipelineScored question docs chunks role
       let citations0 := citationsFromScored docs scored
       let best := bestOf citations0
       let conflict := detect_conflict citations0 question
       let notFound := notFoundFlag citations0
       let lowConf0 := lowConfFlag citations0 question
       let step := llmStep env docs scored citations0 best
         (build_answer env.lmUrl env.gen question citations0 role)
         (confidence_from_distance best) lowConf0
       if step.2.2.1 then
         ({ answer := step.1, citations := step.2.2.2, confidence := step.2.1,
            bestDistance := best, lowConfidence := step.2.2.1,
            reviewId := some env.freshId },
          [{ id := env.freshId, question := question,
             reason := if notFound then "not_found"
                       else if conflict then "conflict" else "low_confidence",
             status := "open",
             draftAnswer := if notFound then none else some step.1,
             draftCitations := step.2.2.2, finalAnswer := none,
             resolvedAt := none }])
       else
         ({ answer := step.1, citations := step.2.2.2, confidence := step.2.1,
            bestDistance := best, lowConfidence := step.2.2.1,
            reviewId := none }, [])) := by
  simp only [askPolicy, h, Bool.false_eq_true, if_false]

/-- The narrowing step on the assembled citations of a sorted scored
list: narrow to the provider's ids, and restore the original list when
the narrowing would empty it (the rebuild reproduces it exactly). -/
theorem narrowCitations_spec (docs : List DocRow) {scored : List (ChunkRow × ℚ)}
    (hsorted : List.Sorted distLE scored) (r : LLMResult)
    (hused : r.usedChunkIds ≠ [])
    (hcits : citationsFromScored docs scored ≠ []) :
    narrowCitations docs scored (citationsFromScored docs scored) r =
      (let narrowed := (citationsFromScored docs scored).filter
          (fun c => r.usedChunkIds.contains c.chunkId)
       if narrowed.isEmpty then citationsFromScored docs scored else narrowed) := by
  unfold narrowCitations
  have hu : r.usedChunkIds.isEmpty = false := by
    rcases h : r.usedChunkIds with _ | _
    · exact absurd h hused
    · rfl
  rw [hu]
  simp only [Bool.not_false, if_true]
  by_cases hne : ((citationsFromScored docs scored).filter
      (fun c => r.usedChunkIds.contains c.chunkId)).isEmpty = true
  · have hlen : decide (0 < (citationsFromScored docs scored).length) = true := by
      rw [decide_eq_true_iff]
      exact List.length_pos.mpr hcits
    rw [hne, hlen]
    simp only [Bool.and_true, if_true]
    rw [rebuild_eq_citations docs hsorted]
  · have hne' : ((citationsFromScored docs scored).filter
        (fun c => r.usedChunkIds.contains c.chunkId)).isEmpty = false :=
      Bool.eq_false_iff.mpr hne
    rw [hne']
    simp [hne']

/-! ### C5: provider citation narrowing and the hallucination guard -/

/-- Claim C5: In provider mode, when the provider result names a non-empty
`usedChunkIds` list, the response's citations are the original citations
narrowed to those ids — unless the narrowing would eliminate every
citation, in which case the response carries the original citation list
unchanged (in particular non-empty when the original was non-empty). -/
theorem provider_narrowing_spec (env : Env) (docs : List DocRow)
    (chunks : List ChunkRow) (role question : String)
    (hen : env.llmEnabled = true) (hok : env.composeRaises = none)
    (hused : (compose_answer env.kind env.attempt
        (citationsFromScored docs (pipelineScored question docs chunks role))
        (bestOf (citationsFromScored docs
          (pipelineScored question docs chunks role)))).usedChunkIds ≠ [])
    (hcits : citationsFromScored docs (pipelineScored question docs chunks role) ≠ []) :
    (askPolicy env docs chunks role question).1.citations =
      (let cits0 := citationsFromScored docs (pipelineScored question docs chunks role)
       let r := compose_answer env.kind env.attempt cits0 (bestOf cits0)
       let narrowed := cits0.filter (fun c => r.usedChunkIds.contains c.chunkId)
       if narrowed.isEmpty then cits0 else narrowed) := by
  have hsorted := sorted_pipelineScored question docs chunks role
  have hnbk : (newestByKey docs).isEmpty = false := by
    rcases h : newestByKey docs with _ | ⟨kv, rest⟩
    · exact absurd (citations_nil_of_nbk_nil question docs chunks role h) hcits
    · rfl
  have hnarrow := narrowCitations_spec docs hsorted
    (compose_answer env.kind env.attempt
      (citationsFromScored docs (pipelineScored question docs chunks role))
      (bestOf (citationsFromScored docs (pipelineScored question docs chunks role))))
    hused hcits
  rw [askPolicy_unfold env docs chunks role question hnbk]
  simp only
  split
  · rw [llmStep_provider env docs (pipelineScored question docs chunks role)
      (citationsFromScored docs (pipelineScored question docs chunks role))
      (bestOf (citationsFromScored docs (pipelineScored question docs chunks role)))
      _ _ _ hen hok hcits]
    exact hnarrow
  · rw [llmStep_provider env docs (pipelineScored question docs chunks role)
      (citationsFromScored docs (pipelineScored question docs chunks role))
      (bestOf (citationsFromScored docs (pipelineScored question docs chunks role)))
      _ _ _ hen hok hcits]
    exact hnarrow

/-! ### C1: the escalation gate -/

set_option maxRecDepth 100000 in
/-- Claim C1 counterexample: the claim as stated is false in provider
mode.  At a concrete request whose citations are non-empty, whose best
distance is 0 and without conflict, the claimed `low_confidence`
formula is false — yet a provider failure escalates (the adapter
returns `escalate = true`), so a review item with reason
`low_confidence` is inserted anyway. -/
theorem escalation_gate_cex :
    lowConfFlag (citationsFromScored docsFix
        (pipelineScored "What is the meals limit?" docsFix chunksLong "internal"))
        "What is the meals limit?" = false
  ∧ (askPolicy envFail docsFix chunksLong "internal" "What is the meals limit?").2.map
      (fun item => item.reason) = ["low_confidence"] := by
  constructor
  · decide
  · decide

/-- Claim C1 (amended): for every request that reaches the gate, in every
mode: `not_found` and the locally computed `low_confidence` are exactly
the claimed formulas; the effective low-confidence flag equals the local
one when the provider step is skipped (disabled, no citations, or
`compose_answer` raised) and the local one OR-ed with the provider's
escalate flag in provider mode; whenever the effective flag holds,
exactly one review item is inserted, with reason chosen over the local
flags by the priority `not_found > conflict > low_confidence` (hence
reason `low_confidence` when escalation was provider-forced), draft
answer null iff `not_found` and otherwise the composed answer, and the
citation set as drafted; when the effective flag is false no review
item is inserted. -/
theorem escalation_gate_spec (env : Env) (docs : List DocRow) (chunks : List ChunkRow)
    (role question : String)
    (hnbk : (newestByKey docs).isEmpty = false)
    (cits : List Citation)
    (hcits : cits = citationsFromScored docs (pipelineScored question docs chunks role))
    (step : String × String × Bool × List Citation)
    (hstep : step = llmStep env docs (pipelineScored question docs chunks role) cits
      (bestOf cits) (build_answer env.lmUrl env.gen question cits role)
      (confidence_from_distance (bestOf cits)) (lowConfFlag cits question)) :
    (notFoundFlag cits = true ↔ (cits = [] ∨ (9:ℚ)/10 ≤ bestOf cits))
  ∧ (lowConfFlag cits question = true ↔
      ((cits = [] ∨ (9:ℚ)/10 ≤ bestOf cits) ∨ (1:ℚ)/2 < bestOf cits
        ∨ detect_conflict cits question = true))
  ∧ (env.llmEnabled = false ∨ cits = [] ∨ env.composeRaises ≠ none →
      step.2.2.1 = lowConfFlag cits question)
  ∧ (env.llmEnabled = true → env.composeRaises = none → cits ≠ [] →
      step.2.2.1 = (lowConfFlag cits question
        || (compose_answer env.kind env.attempt cits (bestOf cits)).escalate))
  ∧ (step.2.2.1 = true →
      (askPolicy env docs chunks role question).2 =
        [{ id := env.freshId, question := question,
           reason := if notFoundFlag cits then "not_found"
                     else if detect_conflict cits question then "conflict"
                     else "low_confidence",
           status := "open",
           draftAnswer := if notFoundFlag cits then none else some step.1,
           draftCitations := step.2.2.2, finalAnswer := none, resolvedAt := none }])
  ∧ (step.2.2.1 = false →
      (askPolicy env docs chunks role question).2 = []) := by
  have h12 : (5:ℚ)/10 = 1/2 := by norm_num
  subst hcits
  subst hstep
  refine ⟨?_, ?_, ?_, ?_, ?_, ?_⟩
  · simp [notFoundFlag, List.isEmpty_iff, ge_iff_le]
  · simp [lowConfFlag, notFoundFlag, List.isEmpty_iff, ge_iff_le, gt_iff_lt, h12,
      or_assoc]
  · intro hskip
    rw [llmStep_skipped env docs _ _ _ _ _ _ hskip]
  · intro hen hok hne
    rw [llmStep_provider env docs _ _ _ _ _ _ hen hok hne]
  · intro hlc
    rw [askPolicy_unfold env docs chunks role question hnbk]
    simp only
    simp only [hlc, if_true]
  · intro hlc
    rw [askPolicy_unfold env docs chunks role question hnbk]
    simp only
    simp only [hlc, Bool.false_eq_true, if_false]

/-! ### C10: the empty-store early return -/

/-- Claim C10: With no documents at all, `/chat/ask` returns the early
"No documents found." response (empty citations, best distance 1,
confidence Low, lowConfidence true, null review id) and inserts no
review item — although for every other request with an empty citation
list a review item with reason `not_found` is inserted. -/
theorem empty_store_early_return (env : Env) (docs : List DocRow)
    (chunks : List ChunkRow) (role question : String) :
    (docs = [] →
      askPolicy env docs chunks role question =
        ({ answer := "No documents found.", citations := [], confidence := "Low",
           bestDistance := 1, lowConfidence := true, reviewId := none }, []))
  ∧ ((newestByKey docs).isEmpty = false →
      citationsFromScored docs (pipelineScored question docs chunks role) = [] →
      (askPolicy env docs chunks role question).2 =
        [{ id := env.freshId, question := question, reason := "not_found",
           status := "open", draftAnswer := none, draftCitations := [],
           finalAnswer := none, resolvedAt := none }]) := by
  constructor
  · intro h
    subst h
    rfl
  · intro hnbk hcits
    rw [askPolicy_unfold env docs chunks role question hnbk]
    simp only
    rw [llmStep_skipped env docs _ _ _ _ _ _ (Or.inr (Or.inl hcits))]
    rw [hcits]
    have hnf : notFoundFlag [] = true := rfl
    have hlc : lowConfFlag [] question = true := by
      simp [lowConfFlag, notFoundFlag]
    simp only [hlc, if_true, hnf]

/-! ### C4: provider failures never raise, but replace the answer -/

/-- Claim C4 (amended): A failure calling the generation provider never
raises to the caller.  Transport/timeout failures are caught inside the
provider adapter, which substitutes its own fallback result — answer
"I encountered an issue connecting to the AI helper.", confidence Low,
escalate forced — so that fallback (not the template answer) is what the
response carries, with citations unchanged; only an exception escaping
`compose_answer` itself is caught in the handler with the already
computed template answer and confidence standing unchanged. -/
theorem provider_failure_fallback (env : Env) (docs : List DocRow)
    (chunks : List ChunkRow) (role question : String)
    (hen : env.llmEnabled = true) (hkind : env.kind = ProviderKind.openaiCompat)
    (hnbk : (newestByKey docs).isEmpty = false) :
    (∀ msg, env.attempt = ProviderAttempt.failure msg → env.composeRaises = none →
      citationsFromScored docs (pipelineScored question docs chunks role) ≠ [] →
        (askPolicy env docs chunks role question).1.answer
            = "I encountered an issue connecting to the AI helper."
      ∧ (askPolicy env docs chunks role question).1.confidence = "Low"
      ∧ (askPolicy env docs chunks role question).1.lowConfidence = true
      ∧ (askPolicy env docs chunks role question).1.citations
            = citationsFromScored docs (pipelineScored question docs chunks role))
  ∧ (∀ e, env.composeRaises = some e →
      (askPolicy env docs chunks role question).1.answer
          = build_answer env.lmUrl env.gen question
              (citationsFromScored docs (pipelineScored question docs chunks role)) role
      ∧ (askPolicy env docs chunks role question).1.confidence
          = confidence_from_distance
              (bestOf (citationsFromScored docs (pipelineScored question docs chunks role)))) := by
  constructor
  · intro msg hatt hok hcits
    have hcompose : compose_answer env.kind env.attempt
        (citationsFromScored docs (pipelineScored question docs chunks role))
        (bestOf (citationsFromScored docs (pipelineScored question docs chunks role)))
        = { answer := "I encountered an issue connecting to the AI helper."
            confidence := "Low", escalate := true, usedChunkIds := []
            reason := some msg } := by
      rw [hkind, hatt]
      rfl
    have hnarrow : narrowCitations docs (pipelineScored question docs chunks role)
        (citationsFromScored docs (pipelineScored question docs chunks role))
        ({ answer := "I encountered an issue connecting to the AI helper."
           confidence := "Low", escalate := true, usedChunkIds := []
           reason := some msg } : LLMResult)
        = citationsFromScored docs (pipelineScored question docs chunks role) := by
      unfold narrowCitations
      simp
    rw [askPolicy_unfold env docs chunks role question hnbk]
    simp only
    rw [llmStep_provider env docs (pipelineScored question docs chunks role)
      (citationsFromScored docs (pipelineScored question docs chunks role))
      (bestOf (citationsFromScored docs (pipelineScored question docs chunks role)))
      _ _ _ hen hok hcits]
    rw [hcompose, hnarrow]
    simp
  · intro e he
    rw [askPolicy_unfold env docs chunks role question hnbk]
    simp only
    rw [llmStep_skipped env docs _ _ _ _ _ _ (Or.inr (Or.inr (by rw [he]; exact fun h => Option.noConfusion h)))]
    by_cases hlc : lowConfFlag (citationsFromScored docs (pipelineScored question docs chunks role)) question = true
    · simp only [hlc, if_true]
      exact ⟨trivial, trivial⟩
    · simp only [Bool.eq_false_iff.mpr hlc, Bool.false_eq_true, if_false]
      exact ⟨trivial, trivial⟩

/-! ### C6: the template composer has no canned topic answers -/

/-- Claim C6 (code evaluation): At the repository's own test input — the
question "What is the meals limit?" with a non-empty citation list drawn
from the seeded travel policy — the template composer does not produce
the canned "Meals are capped at **$60/day**" answer the tests assert:
after the schedule-redirect and no-citations rules it delegates to the
LM Studio call, and on the connection failure of the test environment it
returns a connection-error message that does not contain the canned
answer. -/
theorem template_no_canned_meals :
    build_answer "http://localhost:1234/v1" (GenOutcome.exn "Connection refused")
        "What is the meals limit?"
        [{ chunkId := "chunk_meals", docId := "doc_1", docTitle := "Travel Policy 2025",
           pageStart := 1, pageEnd := 1,
           quote := "Meals are capped at $60/day, itemized receipt required.",
           distance := 83/100 }] "internal"
      = "Error: Could not connect to LM Studio at http://localhost:1234/v1. Is it running?"
  ∧ containsB "Meals are capped at **$60/day**".data
      "Error: Could not connect to LM Studio at http://localhost:1234/v1. Is it running?".data
      = false := by
  constructor
  · decide
  · decide

/-! ### C8: schedule rule priority -/

/-- Claim C8: The schedule Q&A evaluates its rules in fixed priority order
(holiday, then weekday, then on-call, then the help fallback) and the
answer is produced by exactly the first applicable rule; in particular a
question containing both "holiday" and a configured weekday name is
answered by the holiday rule. -/
theorem schedule_priority_spec (today : String) (s : ScheduleConfig) (q : String) :
    (containsB "holiday".data (lowerStr q.data) = true →
      askSchedule today (some s) q = holidayAnswer today s (lowerStr q.data))
  ∧ (containsB "holiday".data (lowerStr q.data) = false →
      askSchedule today (some s) q =
        (match s.week.find? (fun day => containsB (lowerStr day.day.data) (lowerStr q.data)) with
         | some day => weekdayAnswer s day
         | none =>
           if containsB "oncall".data (lowerStr q.data)
               || containsB "on-call".data (lowerStr q.data) then oncallAnswer s
           else scheduleHelp))
  ∧ (containsB "holiday".data (lowerStr q.data) = true →
      (∃ d ∈ s.week, containsB (lowerStr d.day.data) (lowerStr q.data) = true) →
      askSchedule today (some s) q = holidayAnswer today s (lowerStr q.data)) := by
  refine ⟨fun h => ?_, fun h => ?_, fun h _ => ?_⟩
  · simp [askSchedule, h]
  · simp [askSchedule, h]
  · simp [askSchedule, h]

/-! ### C9: resolving review items -/

/-- Claim C9 (amended): The resolve operation succeeds iff an item with the
given id exists, failing with the distinct "Review item not found" error
otherwise; on success it unconditionally overwrites the matched item's
status, final answer and resolution timestamp — so resolving an
already-resolved item succeeds again and changes it, rather than being
rejected. -/
theorem resolve_review_spec (items : List ReviewRow) (id finalAnswer : String)
    (now : Nat) :
    ((∃ r ∈ items, r.id = id) →
      resolveReview items id finalAnswer now =
        Except.ok (items.map (fun r =>
          if r.id = id then
            { r with
              status := "resolved", finalAnswer := some finalAnswer,
              resolvedAt := some now }
          else r), true))
  ∧ ((∀ r ∈ items, r.id ≠ id) →
      resolveReview items id finalAnswer now = Except.error "Review item not found") := by
  constructor
  · rintro ⟨r, hr, hid⟩
    unfold resolveReview
    have hne : ¬(items.filter (fun r => decide (r.id = id))).length = 0 := by
      intro h0
      rw [List.length_eq_zero] at h0
      have := List.filter_eq_nil_iff.mp h0 r hr
      simp [hid] at this
    rw [if_neg hne]
  · intro hall
    unfold resolveReview
    have hz : (items.filter (fun r => decide (r.id = id))).length = 0 := by
      rw [List.length_eq_zero, List.filter_eq_nil_iff]
      intro a ha
      simp [hall a ha]
    rw [if_pos hz]

/-- Claim C9 counterexample: Resolving an already-resolved item succeeds
again (`ok = true`) and changes the stored item (new final answer, new
resolution timestamp), refuting "a subsequent resolve of the same id
does not succeed again or change it". -/
theorem resolve_review_re_resolves :
    resolveReview [reviewResolvedFix] "rev_9" "new answer" 9
      = Except.ok ([{ id := "rev_9", question := "What is X?", reason := "not_found",
                      status := "resolved", draftAnswer := none, draftCitations := [],
                      finalAnswer := some "new answer", resolvedAt := some 9 }], true)
  ∧ ({ id := "rev_9", question := "What is X?", reason := "not_found",
       status := "resolved", draftAnswer := none, draftCitations := [],
       finalAnswer := some "new answer", resolvedAt := some 9 } : ReviewRow)
      ≠ reviewResolvedFix := by
  constructor
  · rfl
  · decide

/-- Claim C9 witness: Resolving an existing open item succeeds and marks it
resolved; resolving a missing id reports the distinct failure. -/
theorem resolve_review_spec_witness :
    (∃ r ∈ [reviewOpenFix], r.id = "rev_9")
  ∧ resolveReview [reviewOpenFix] "rev_9" "final" 7
      = Except.ok ([{ id := "rev_9", question := "What is X?", reason := "not_found",
                      status := "resolved", draftAnswer := none, draftCitations := [],
                      finalAnswer := some "final", resolvedAt := some 7 }], true)
  ∧ resolveReview [] "rev_404" "final" 7 = Except.error "Review item not found" := by
  refine ⟨⟨reviewOpenFix, by simp, rfl⟩, ?_, ?_⟩
  · have h := (resolve_review_spec [reviewOpenFix] "rev_9" "final" 7).1
      ⟨reviewOpenFix, by simp, rfl⟩
    exact h.trans rfl
  · exact (resolve_review_spec [] "rev_404" "final" 7).2 (by simp)

/-! ### Witnesses for the pipeline claims -/

/-- Claim C1 witness: Against a store with one document and no readable
chunks, the citation list is empty, `low_confidence` holds, and exactly
one review item with reason `not_found` and a null draft is inserted. -/
theorem escalation_gate_spec_witness :
    lowConfFlag (citationsFromScored docsFix
        (pipelineScored "What is the policy?" docsFix [] "internal"))
        "What is the policy?" = true
  ∧ (askPolicy envTemplate docsFix [] "internal" "What is the policy?").2 =
      [{ id := "rev_1", question := "What is the policy?", reason := "not_found",
         status := "open", draftAnswer := none, draftCitations := [],
         finalAnswer := none, resolvedAt := none }] := by
  refine ⟨by decide, ?_⟩
  have h := (escalation_gate_spec envTemplate docsFix [] "internal" "What is the policy?"
    (by decide) _ rfl _ rfl).2.2.2.2.1 (by decide)
  exact h.trans (by decide)

/-- Claim C2 witness: The assembled citations for the seeded meals scenario
are non-empty, bounded by 6 and sorted. -/
theorem citation_assembly_witness :
    (citationsFromScored docsFix
        (pipelineScored "What is the meals limit?" docsFix chunksFix "internal")).length ≤ 6
  ∧ List.Sorted (fun a b : Citation => a.distance ≤ b.distance)
      (citationsFromScored docsFix
        (pipelineScored "What is the meals limit?" docsFix chunksFix "internal")) :=
  ⟨(citation_assembly_spec "What is the meals limit?" docsFix chunksFix "internal").1,
   (citation_assembly_spec "What is the meals limit?" docsFix chunksFix "internal").2.1⟩

/-- Claim C4 witness: A provider transport failure is absorbed: the request
completes with the adapter's fallback answer, Low confidence and forced
escalation. -/
theorem provider_failure_witness :
    citationsFromScored docsFix
        (pipelineScored "What is the meals limit?" docsFix chunksFix "internal") ≠ []
  ∧ (askPolicy envFail docsFix chunksFix "internal" "What is the meals limit?").1.answer
      = "I encountered an issue connecting to the AI helper."
  ∧ (askPolicy envFail docsFix chunksFix "internal" "What is the meals limit?").1.confidence
      = "Low"
  ∧ (askPolicy envFail docsFix chunksFix "internal" "What is the meals limit?").1.lowConfidence
      = true := by
  refine ⟨by decide, ?_⟩
  have h := (provider_failure_fallback envFail docsFix chunksFix "internal"
    "What is the meals limit?" rfl rfl (by decide)).1 "timeout" rfl rfl (by decide)
  exact ⟨h.1, h.2.1, h.2.2.1⟩

/-- Claim C4 counterexample: The claim as stated is false: on a provider
failure the response's answer is the adapter's fallback, not the
already computed template answer. -/
theorem provider_failure_cex :
    (askPolicy envFail docsFix chunksFix "internal" "What is the meals limit?").1.answer
      ≠ build_answer envFail.lmUrl envFail.gen "What is the meals limit?"
          (citationsFromScored docsFix
            (pipelineScored "What is the meals limit?" docsFix chunksFix "internal"))
          "internal" := by
  decide

/-- Claim C5 witness: A provider naming only unknown chunk ids leaves the
original, non-empty citation list in the response. -/
theorem provider_narrowing_witness :
    (compose_answer envGhost.kind envGhost.attempt
        (citationsFromScored docsFix
          (pipelineScored "What is the meals limit?" docsFix chunksFix "internal"))
        (bestOf (citationsFromScored docsFix
          (pipelineScored "What is the meals limit?" docsFix chunksFix "internal")))).usedChunkIds
      ≠ []
  ∧ (askPolicy envGhost docsFix chunksFix "internal" "What is the meals limit?").1.citations
      = citationsFromScored docsFix
          (pipelineScored "What is the meals limit?" docsFix chunksFix "internal")
  ∧ citationsFromScored docsFix
      (pipelineScored "What is the meals limit?" docsFix chunksFix "internal") ≠ [] := by
  refine ⟨by decide, ?_, by decide⟩
  have h := provider_narrowing_spec envGhost docsFix chunksFix "internal"
    "What is the meals limit?" rfl rfl (by decide) (by decide)
  exact h.trans (by decide)

/-- Claim C8 witness: "Is Monday a holiday?" contains both "holiday" and the
configured weekday name "Monday", and is answered by the holiday rule. -/
theorem schedule_priority_witness :
    containsB "holiday".data (lowerStr "Is Monday a holiday?".data) = true
  ∧ (∃ d ∈ cfgFix.week,
      containsB (lowerStr d.day.data) (lowerStr "Is Monday a holiday?".data) = true)
  ∧ askSchedule "2026-01-19" (some cfgFix) "Is Monday a holiday?"
      = holidayAnswer "2026-01-19" cfgFix (lowerStr "Is Monday a holiday?".data)
  ∧ askSchedule "2026-01-19" (some cfgFix) "Is Monday a holiday?"
      = "Next holiday: **Christmas Day** on **2026-12-25** (America/New_York)." := by
  refine ⟨by decide, ⟨{ day := "Monday", start := "08:00", «end» := "17:00", note := none },
    by decide, by decide⟩, ?_, by decide⟩
  exact (schedule_priority_spec "2026-01-19" cfgFix "Is Monday a holiday?").2.2 (by decide)
    ⟨{ day := "Monday", start := "08:00", «end» := "17:00", note := none },
     by decide, by decide⟩

/-- Claim C10 witness: An empty store returns the early response with no
review item; a store whose readable chunks yield no citations inserts
exactly the `not_found` review item. -/
theorem empty_store_witness :
    (askPolicy envTemplate ([] : List DocRow) [] "internal" "Anything?" =
      ({ answer := "No documents found.", citations := [], confidence := "Low",
         bestDistance := 1, lowConfidence := true, reviewId := none }, []))
  ∧ (askPolicy envTemplate docsFix [] "internal" "Where is the dragon?").2 =
      [{ id := "rev_1", question := "Where is the dragon?", reason := "not_found",
         status := "open", draftAnswer := none, draftCitations := [],
         finalAnswer := none, resolvedAt := none }] := by
  refine ⟨(empty_store_early_return envTemplate [] [] "internal" "Anything?").1 rfl, ?_⟩
  have h := (empty_store_early_return envTemplate docsFix [] "internal"
    "Where is the dragon?").2 (by decide) (by decide)
  exact h.trans (by decide)

end Guideline
